import Mathlib

/-
Formal model of the IND-RegisterExplorer repository.

The repository has two components:
* a scraping module (`backend/app/scraping.py`) with `scrape_ind_organisations`
  (HTML registry table extraction) and `scrape_organization_linkedin_from_google`
  (search-API call returning the first result link), and
* a SQLite wrapper (`backend/app/databases.py`, with a near-duplicate older copy
  `databases.py` at the repository root) exposing CRUD operations on one
  database file.

The Python code is embedded shallowly: HTTP responses, HTML cells and JSON
bodies become explicit data; the sqlite3 connection becomes a state record
holding the durable (committed) database and the connection's working
(possibly uncommitted) database; Python exceptions become explicit error
values (`SqlError` for sqlite3 exceptions, `PyError` for anything that
escapes an operation to its caller).
-/

/-! ## Scraping module (`backend/app/scraping.py`) -/

def IND_HEADER_1 : String := "Company/organisation"

def IND_HEADER_2 : String := "Comp.Reg.nr."

def HTTP_OK : Nat := 200

/-- One HTML element as seen by the `soup.select('th[scope=row]')` query:
its tag name, the value of its `scope` attribute (empty when absent), and
its raw text content. -/
structure HtmlCell where
  tag : String
  scope : String
  text : String
deriving DecidableEq

/-- Model of BeautifulSoup's `get_text(strip=True)`: the element's text with
leading and trailing whitespace removed. -/
def stripText (s : String) : String :=
  ⟨((s.data.dropWhile (fun c => c.isWhitespace)).reverse.dropWhile
      (fun c => c.isWhitespace)).reverse⟩

/-- Embedding of `scrape_ind_organisations(ind_sponsors_url, ind_header_1, ind_header_2)`.
The fetched page is abstracted as the list of its HTML cells. The source
filters the selected cells against the module constants `IND_HEADER_1` and
`IND_HEADER_2`, not against the `ind_header_1` / `ind_header_2` parameters. -/
def scrape_ind_organisations (page : List HtmlCell)
    (ind_header_1 ind_header_2 : String) : List String :=
  let organisation_elements := page.filter (fun c => c.tag == "th" && c.scope == "row")
  (organisation_elements.map (fun e => stripText e.text)).filter
    (fun t => !(t == IND_HEADER_1 || t == IND_HEADER_2))

/-- One entry of the search API's `items` array; only the `link` field is read. -/
structure SearchItem where
  link : String
deriving DecidableEq

/-- A search-API HTTP response: status code, the optional `items` array of the
JSON body (`none` when the body has no `items` key, `some []` when the key is
present with an empty array), and the raw body text. -/
structure GoogleResponse where
  status_code : Nat
  items : Option (List SearchItem)
  text : String
deriving DecidableEq

/-- Outcome of a Python call: a returned string, a raised `RuntimeError`
carrying its message, or a raised `IndexError` from indexing an empty list. -/
inductive PyOutcome where
  | value (s : String)
  | runtimeError (msg : String)
  | indexError
deriving DecidableEq

/-- Result of `scrape_organization_linkedin_from_google`: the lines printed to
stdout together with the call's outcome. -/
structure GoogleScrapeResult where
  printed : List String
  result : PyOutcome
deriving DecidableEq

/-- Embedding of `scrape_organization_linkedin_from_google(organization)`,
abstracted over the HTTP response it receives. On status 200 it tests
membership of the `items` key (`if "items" in data`), then indexes
`data["items"][0]`; otherwise it prints `response.text` and raises a
`RuntimeError` with a fixed message. -/
def scrape_organization_linkedin_from_google (response : GoogleResponse) :
    GoogleScrapeResult :=
  if response.status_code == HTTP_OK then
    match response.items with
    | some items =>
      match items with
      | first_result :: _ => ⟨[], .value first_result.link⟩
      | [] => ⟨[], .indexError⟩
    | none => ⟨[], .value "No results found."⟩
  else
    ⟨[response.text], .runtimeError "Error: Unable to retrieve search results."⟩

/-- Whether `sub` occurs as a contiguous substring of `l`. -/
def charsContain (sub : List Char) : List Char → Bool
  | [] => sub.isEmpty
  | c :: tail => sub.isPrefixOf (c :: tail) || charsContain sub tail

/-- Whether `sub` occurs as a contiguous substring of `s`. -/
def strContains (s sub : String) : Bool :=
  charsContain sub.data s.data

/-! ## Theorems for claims C1, C2 and C4 -/

/-- C1, counterexample: the claim says a 200 response whose body has
`items: []` makes `scrape_organization_linkedin_from_google` return the
literal string `"No results found."` without raising.  In the code,
`if "items" in data` succeeds on `{"items": []}` and `data["items"][0]`
then raises an `IndexError`, so the call raises instead of returning. -/
theorem c1_empty_items_raises_index_error :
    scrape_organization_linkedin_from_google ⟨200, some [], "\x7b\x7d"⟩ =
      ⟨[], PyOutcome.indexError⟩ := by
  rfl

/-- C1, amended: on a 200 response, `scrape_organization_linkedin_from_google`
returns `"No results found."` exactly when the body has no `items` key;
when `items` is present and non-empty it returns the first item's link; and
when `items` is present but empty it raises an `IndexError`. -/
theorem c1_google_scrape_zero_and_first_result (resp : GoogleResponse)
    (h : resp.status_code = 200) :
    (resp.items = none →
      scrape_organization_linkedin_from_google resp =
        ⟨[], PyOutcome.value "No results found."⟩) ∧
    (∀ first rest, resp.items = some (first :: rest) →
      scrape_organization_linkedin_from_google resp =
        ⟨[], PyOutcome.value first.link⟩) ∧
    (resp.items = some [] →
      scrape_organization_linkedin_from_google resp =
        ⟨[], PyOutcome.indexError⟩) := by
  refine ⟨fun hi => ?_, fun first rest hi => ?_, fun hi => ?_⟩ <;>
    simp [scrape_organization_linkedin_from_google, HTTP_OK, h, hi]

theorem c1_google_scrape_zero_and_first_result_witness :
    scrape_organization_linkedin_from_google ⟨200, none, "\x7b\x7d"⟩ =
      ⟨[], PyOutcome.value "No results found."⟩ ∧
    scrape_organization_linkedin_from_google
        ⟨200, some [⟨"https://www.linkedin.com/company/abb"⟩], "body"⟩ =
      ⟨[], PyOutcome.value "https://www.linkedin.com/company/abb"⟩ :=
  ⟨(c1_google_scrape_zero_and_first_result ⟨200, none, "\x7b\x7d"⟩ rfl).1 rfl,
   (c1_google_scrape_zero_and_first_result
      ⟨200, some [⟨"https://www.linkedin.com/company/abb"⟩], "body"⟩ rfl).2.1
      ⟨"https://www.linkedin.com/company/abb"⟩ [] rfl⟩

/-- C2: on the test-suite's minimal fragment the scraper returns exactly
`["Company A", "Company B"]`; but the exclusion labels passed as arguments
are ignored — the code filters on the module constants `IND_HEADER_1` and
`IND_HEADER_2` — so a row cell whose text equals a passed exclusion label
(here `"Foo"`) is NOT removed, contradicting the function's own docstring
("Header to be ignored during scraping"). -/
theorem c2_scraper_ignores_passed_exclusion_labels :
    scrape_ind_organisations
      [⟨"th", "row", "Company/organisation"⟩, ⟨"th", "col", "Comp.Reg.nr."⟩,
       ⟨"th", "row", " Company A"⟩, ⟨"th", "col", "24395334"⟩,
       ⟨"th", "row", "Company B"⟩, ⟨"td", "", "17037842"⟩]
      IND_HEADER_1 IND_HEADER_2 = ["Company A", "Company B"] ∧
    scrape_ind_organisations [⟨"th", "row", "Foo"⟩] "Foo" "Bar" = ["Foo"] := by
  exact ⟨rfl, rfl⟩

/-- C4, counterexample: on a non-200 response the raised `RuntimeError`
carries only the fixed message `"Error: Unable to retrieve search results."`;
the response body (`"boom"` here) is not contained in that message — it is
only printed to stdout — so the claim that the error "carries the response
body text" is false. -/
theorem c4_error_message_omits_response_body :
    (scrape_organization_linkedin_from_google ⟨500, none, "boom"⟩).result =
      PyOutcome.runtimeError "Error: Unable to retrieve search results." ∧
    strContains "Error: Unable to retrieve search results." "boom" = false := by
  exact ⟨rfl, rfl⟩

/-- C4, amended: on every non-200 response,
`scrape_organization_linkedin_from_google` raises a `RuntimeError` with the
fixed message `"Error: Unable to retrieve search results."` and prints the
response body to stdout (the body is not carried in the error). -/
theorem c4_non_200_raises_fixed_runtime_error (resp : GoogleResponse)
    (h : (resp.status_code == 200) = false) :
    scrape_organization_linkedin_from_google resp =
      ⟨[resp.text], PyOutcome.runtimeError
        "Error: Unable to retrieve search results."⟩ := by
  simp [scrape_organization_linkedin_from_google, HTTP_OK, h]

theorem c4_non_200_raises_fixed_runtime_error_witness :
    scrape_organization_linkedin_from_google ⟨500, none, "boom"⟩ =
      ⟨["boom"], PyOutcome.runtimeError
        "Error: Unable to retrieve search results."⟩ :=
  c4_non_200_raises_fixed_runtime_error ⟨500, none, "boom"⟩ rfl

/-! ## SQLite wrapper (`backend/app/databases.py` and root `databases.py`) -/

/-- The information used to define one database column
(`DatabaseColInfo` dataclass): name, SQL data type, and constraint text.
The repository uses the constraint strings `"PRIMARY KEY"`, `"UNIQUE"`
and `""`. -/
structure DatabaseColInfo where
  name : String
  data_type : String
  col_constraint : String
deriving DecidableEq

/-- A stored row: one optional (nullable) value per schema column. -/
abbrev DbRow := List (Option String)

/-- A table: its column schema and its rows in database row order. -/
structure DbTable where
  schema : List DatabaseColInfo
  rows : List DbRow
deriving DecidableEq

/-- A database: the association of table names to tables. -/
abbrev Db := List (String × DbTable)

/-- A sqlite3 exception (`sqlite3.Error` subclasses the code can hit). -/
inductive SqlError where
  | operationalError (msg : String)
  | integrityError (msg : String)
  | programmingError (msg : String)
deriving DecidableEq

/-- An exception escaping a wrapper method to its caller: the `ValueError`
of `_get_primary_key_column`, an uncaught sqlite3 error, or the
`AttributeError` from using a cursor or connection that was never created. -/
inductive PyError where
  | valueError (msg : String)
  | sqliteError (e : SqlError)
  | attributeError
deriving DecidableEq

/-- Whether a column's constraint marks it as the primary key
(PRAGMA `pk` flag). -/
def isPrimaryKeyCol (c : DatabaseColInfo) : Bool :=
  c.col_constraint == "PRIMARY KEY"

/-- Whether a column carries a uniqueness-enforcing constraint
(PRIMARY KEY or UNIQUE). -/
def isConstrainedCol (c : DatabaseColInfo) : Bool :=
  c.col_constraint == "PRIMARY KEY" || c.col_constraint == "UNIQUE"

/-- PRAGMA `table_info(name)`: the table's columns, or `[]` when the table
does not exist (the PRAGMA itself never errors). -/
def tableInfo (db : Db) (name : String) : List DatabaseColInfo :=
  match db.lookup name with
  | some t => t.schema
  | none => []

/-- Replace the table stored under `name`. -/
def dbUpdate (db : Db) (name : String) (t : DbTable) : Db :=
  db.map (fun p => if p.1 == name then (name, t) else p)

/-- The values of column `i` down all rows. -/
def colValues (rows : List DbRow) (i : Nat) : List (Option String) :=
  rows.map (fun r => r.getD i none)

/-- `vals` holds the same non-NULL value twice (sqlite treats NULLs as
pairwise distinct for uniqueness constraints). -/
def dupNonNull : List (Option String) → Bool
  | [] => false
  | v :: rest =>
    (match v with
     | some s => rest.contains (some s)
     | none => false) || dupNonNull rest

/-- A candidate new row conflicts with a PRIMARY KEY / UNIQUE column of the
existing table. -/
def violatesConstraint (t : DbTable) (row : DbRow) : Bool :=
  (List.range t.schema.length).any (fun i =>
    isConstrainedCol (t.schema.getD i ⟨"", "", ""⟩) &&
    match row.getD i none with
    | some v => (colValues t.rows i).contains (some v)
    | none => false)

/-- The uniqueness constraints hold across a whole row set. -/
def rowsSatisfyConstraints (schema : List DatabaseColInfo) (rows : List DbRow) : Bool :=
  (List.range schema.length).all (fun i =>
    !(isConstrainedCol (schema.getD i ⟨"", "", ""⟩)) ||
    !(dupNonNull (colValues rows i)))

/-- The row built by `INSERT INTO name (keys) VALUES (values)`: each schema
column takes the value supplied for its name, or NULL when absent. -/
def buildRow (schema : List DatabaseColInfo) (data : List (String × String)) : DbRow :=
  schema.map (fun c => data.lookup c.name)

/-- Effect of executing `CREATE TABLE IF NOT EXISTS name (cols)`: a no-op on
an existing table; a syntax error on an empty column list. -/
def sqlCreateTable (db : Db) (name : String) (cols : List DatabaseColInfo) :
    Except SqlError Db :=
  if cols.isEmpty then
    .error (.operationalError "incomplete input")
  else if (db.lookup name).isSome then
    .ok db
  else
    .ok (db ++ [(name, ⟨cols, []⟩)])

/-- Effect of executing `INSERT INTO name (data.keys) VALUES (data.values)`. -/
def sqlInsert (db : Db) (name : String) (data : List (String × String)) :
    Except SqlError Db :=
  if data.isEmpty then
    .error (.operationalError "incomplete input")
  else
    match db.lookup name with
    | none => .error (.operationalError ("no such table: " ++ name))
    | some t =>
      if data.any (fun kv => !(t.schema.any (fun c => c.name == kv.1))) then
        .error (.operationalError "no such column")
      else
        let row := buildRow t.schema data
        if violatesConstraint t row then
          .error (.integrityError "UNIQUE constraint failed")
        else
          .ok (dbUpdate db name ⟨t.schema, t.rows ++ [row]⟩)

/-- Whether a row satisfies the OR-joined predicate
`col1 = target OR col2 = target OR ...` over the first `numCols` columns. -/
def rowMatchesAnyColumn (numCols : Nat) (row : DbRow) (target : String) : Bool :=
  (List.range numCols).any (fun i => row.getD i none == some target)

/-- Effect of `DELETE FROM name WHERE col1 = ? OR ...` with one `= ?` term
per PRAGMA column: deletes every matching row and reports the affected-row
count; a missing table yields an empty column list, hence an empty WHERE
clause and a malformed-query error. -/
def sqlDeleteByStringMatch (db : Db) (name target : String) :
    Except SqlError (Db × Nat) :=
  let cols := tableInfo db name
  if cols.isEmpty then
    .error (.operationalError "incomplete input")
  else
    match db.lookup name with
    | none => .error (.operationalError ("no such table: " ++ name))
    | some t =>
      let remaining := t.rows.filter
        (fun r => !(rowMatchesAnyColumn cols.length r target))
      let affected := t.rows.countP
        (fun r => rowMatchesAnyColumn cols.length r target)
      .ok (dbUpdate db name ⟨t.schema, remaining⟩, affected)

/-- Row `row` updated by `SET k = v` for every `(k, v)` in `updates`. -/
def applyUpdates (schema : List DatabaseColInfo) (updates : List (String × String))
    (row : DbRow) : DbRow :=
  schema.enum.map (fun p =>
    match updates.lookup p.2.name with
    | some v => some v
    | none => row.getD p.1 none)

/-- Effect of `UPDATE name SET ... WHERE pkCol = target`: rewrites every row
whose `pkCol` value equals `target`, reporting the affected-row count, and
fails with an integrity error when the result would violate a uniqueness
constraint. -/
def sqlUpdateRow (db : Db) (name pkCol : String) (updates : List (String × String))
    (target : String) : Except SqlError (Db × Nat) :=
  match db.lookup name with
  | none => .error (.operationalError ("no such table: " ++ name))
  | some t =>
    if updates.isEmpty then
      .error (.operationalError "incomplete input")
    else if updates.any (fun kv => !(t.schema.any (fun c => c.name == kv.1))) then
      .error (.operationalError "no such column")
    else
      match t.schema.findIdx? (fun c => c.name == pkCol) with
      | none => .error (.operationalError ("no such column: " ++ pkCol))
      | some pkIdx =>
        let newRows := t.rows.map (fun r =>
          if r.getD pkIdx none == some target then applyUpdates t.schema updates r
          else r)
        let affected := t.rows.countP (fun r => r.getD pkIdx none == some target)
        if rowsSatisfyConstraints t.schema newRows then
          .ok (dbUpdate db name ⟨t.schema, newRows⟩, affected)
        else
          .error (.integrityError "UNIQUE constraint failed")

/-- Effect of `SELECT column FROM name`. -/
def sqlGetColumnValues (db : Db) (name column : String) :
    Except SqlError (List (Option String)) :=
  match db.lookup name with
  | none => .error (.operationalError ("no such table: " ++ name))
  | some t =>
    match t.schema.findIdx? (fun c => c.name == column) with
    | none => .error (.operationalError ("no such column: " ++ column))
    | some i => .ok (t.rows.map (fun r => r.getD i none))

/-- Effect of `SELECT * FROM name WHERE col1 = ? OR ...` followed by
`fetchone()`: the first matching row, `none` when no row matches;
a missing table gives an empty WHERE clause and a malformed-query error. -/
def sqlGetRowContainingTerm (db : Db) (name term : String) :
    Except SqlError (Option (List (String × Option String))) :=
  let cols := tableInfo db name
  if cols.isEmpty then
    .error (.operationalError "incomplete input")
  else
    match db.lookup name with
    | none => .error (.operationalError ("no such table: " ++ name))
    | some t =>
      match t.rows.find? (fun r => rowMatchesAnyColumn cols.length r term) with
      | some r => .ok (some ((cols.map (fun c => c.name)).zip r))
      | none => .ok none

/-- Effect of `SELECT * FROM name` followed by `fetchall()`. -/
def sqlSelectAll (db : Db) (name : String) : Except SqlError (List DbRow) :=
  match db.lookup name with
  | none => .error (.operationalError ("no such table: " ++ name))
  | some t => .ok t.rows

/-- State of one `SQLite3Database` object together with its database file:
`fileDb` is the durable (committed) content of the file, `conn` is `some`
working database when a connection is open (the working copy carries
uncommitted changes), and `hasCursor` records whether a cursor object was
ever created by a successful `connect`. -/
structure DBState where
  fileDb : Db
  conn : Option Db
  hasCursor : Bool
deriving DecidableEq

/-- Result of one wrapper-method call: the state afterwards and either the
returned value or the exception that escaped to the caller. -/
structure OpResult (α : Type) where
  state : DBState
  out : Except PyError α

/-- Run a statement through `self.cursor`: on a closed connection sqlite3
raises a `ProgrammingError` (the cursor object outlives `disconnect`, which
only clears `self.connection`). -/
def runCursor (s : DBState) (k : Db → Except SqlError β) : Except SqlError β :=
  match s.conn with
  | none => .error (.programmingError "Cannot operate on a closed database.")
  | some db => k db

/-- Embedding of `connect`: opens the file-backed connection when none is
open; a no-op otherwise. -/
def connect (s : DBState) : DBState :=
  match s.conn with
  | some _ => s
  | none => ⟨s.fileDb, some s.fileDb, true⟩

/-- Embedding of `disconnect`: closes and clears the connection when open
(discarding uncommitted changes); a no-op otherwise. The cursor attribute
is not cleared. -/
def disconnect (s : DBState) : DBState :=
  match s.conn with
  | some _ => ⟨s.fileDb, none, s.hasCursor⟩
  | none => s

/-- Embedding of `create_table` (identical in both copies): executes
`CREATE TABLE IF NOT EXISTS` and commits; every `sqlite3.Error` is caught
and logged. -/
def create_table (s : DBState) (table_name : String)
    (columns : List DatabaseColInfo) : OpResult Unit :=
  if s.hasCursor then
    match runCursor s (fun db => sqlCreateTable db table_name columns) with
    | .ok db2 => ⟨⟨db2, some db2, true⟩, .ok ()⟩
    | .error _ => ⟨s, .ok ()⟩
  else
    ⟨s, .error .attributeError⟩

/-- Embedding of `insert` (identical in both copies): executes the INSERT on
`self.connection` without committing; an `IntegrityError` is caught by the
inner handler (logged as a duplicate-data warning), any other
`sqlite3.Error` by the outer handler; a missing connection raises
`AttributeError`. -/
def SQLite3Database.insert (s : DBState) (table_name : String)
    (data : List (String × String)) : OpResult Unit :=
  match s.conn with
  | none => ⟨s, .error .attributeError⟩
  | some db =>
    match sqlInsert db table_name data with
    | .ok db2 => ⟨⟨s.fileDb, some db2, s.hasCursor⟩, .ok ()⟩
    | .error (.integrityError _) => ⟨s, .ok ()⟩
    | .error _ => ⟨s, .ok ()⟩

/-- Embedding of the backend copy's `delete_by_string_match`: builds the
OR-joined exact-match DELETE from the PRAGMA column list, executes it and
commits; every `sqlite3.Error` is caught and logged. -/
def delete_by_string_match (s : DBState) (table_name target_string : String) :
    OpResult Unit :=
  if s.hasCursor then
    match runCursor s (fun db => sqlDeleteByStringMatch db table_name target_string) with
    | .ok (db2, _) => ⟨⟨db2, some db2, true⟩, .ok ()⟩
    | .error _ => ⟨s, .ok ()⟩
  else
    ⟨s, .error .attributeError⟩

/-- Embedding of the root copy's `delete_by_string_match`
(`databases.py` lines 98-109): same statement and commit, but with no
`try`/`except` — a sqlite3 error propagates to the caller. -/
def delete_by_string_match_root (s : DBState) (table_name target_string : String) :
    OpResult Unit :=
  if s.hasCursor then
    match runCursor s (fun db => sqlDeleteByStringMatch db table_name target_string) with
    | .ok (db2, _) => ⟨⟨db2, some db2, true⟩, .ok ()⟩
    | .error e => ⟨s, .error (.sqliteError e)⟩
  else
    ⟨s, .error .attributeError⟩

/-- Embedding of `_get_primary_key_column` without its `ValueError`: the
first PRAGMA column whose `pk` flag is set, if any. -/
def getPrimaryKeyColumn (db : Db) (table_name : String) : Option String :=
  ((tableInfo db table_name).find? isPrimaryKeyCol).map (fun c => c.name)

/-- Embedding of the backend copy's `update_row`: resolves the primary-key
column by schema introspection (raising `ValueError` — NOT caught by the
`except sqlite3.Error` handler — when no column has the `pk` flag), then
executes the UPDATE and commits; every `sqlite3.Error` is caught and
logged. -/
def update_row (s : DBState) (table_name target_string : String)
    (data_to_update : List (String × String)) : OpResult Unit :=
  if s.hasCursor then
    match s.conn with
    | none => ⟨s, .ok ()⟩
    | some db =>
      match getPrimaryKeyColumn db table_name with
      | none =>
        ⟨s, .error (.valueError
          ("No primary key found for table '" ++ table_name ++ "'"))⟩
      | some pk =>
        match sqlUpdateRow db table_name pk data_to_update target_string with
        | .ok (db2, _) => ⟨⟨db2, some db2, true⟩, .ok ()⟩
        | .error _ => ⟨s, .ok ()⟩
  else
    ⟨s, .error .attributeError⟩

/-- Embedding of `get_column_values`: returns the column's values in row
order, or `none` (the implicit Python `None`) when a caught `sqlite3.Error`
aborts the query. -/
def get_column_values (s : DBState) (table_name column_name : String) :
    OpResult (Option (List (Option String))) :=
  if s.hasCursor then
    match runCursor s (fun db => sqlGetColumnValues db table_name column_name) with
    | .ok vals => ⟨s, .ok (some vals)⟩
    | .error _ => ⟨s, .ok none⟩
  else
    ⟨s, .error .attributeError⟩

/-- Embedding of `get_row_containing_term`: the first row in which any
column equals the search term, as a column-name-to-value association, or
`None` both when no row matches and when a caught `sqlite3.Error` aborts
the query. -/
def get_row_containing_term (s : DBState) (table_name search_term : String) :
    OpResult (Option (List (String × Option String))) :=
  if s.hasCursor then
    match runCursor s (fun db => sqlGetRowContainingTerm db table_name search_term) with
    | .ok r => ⟨s, .ok r⟩
    | .error _ => ⟨s, .ok none⟩
  else
    ⟨s, .error .attributeError⟩

/-- Embedding of `show_table_data`: prints the rows; returns `[]` (modelled
as `some []`) when the table is empty and Python's implicit `None` otherwise;
every `sqlite3.Error` is caught and logged. -/
def show_table_data (s : DBState) (table_name : String) :
    OpResult (Option (List DbRow)) :=
  if s.hasCursor then
    match runCursor s (fun db => sqlSelectAll db table_name) with
    | .ok rows => ⟨s, .ok (if rows.isEmpty then some [] else none)⟩
    | .error _ => ⟨s, .ok none⟩
  else
    ⟨s, .error .attributeError⟩

/-- Whether a wrapper call let no sqlite3 error escape to its caller. -/
def sqliteErrFree {α : Type} (r : OpResult α) : Bool :=
  match r.out with
  | .error (.sqliteError _) => false
  | _ => true

/-! ## Sample data shared by the witnesses (the schema and rows used by the
repository's own tests: `organisations(organisation_name TEXT PRIMARY KEY,
url TEXT UNIQUE)`). -/

def orgSchema : List DatabaseColInfo :=
  [⟨"organisation_name", "TEXT", "PRIMARY KEY"⟩, ⟨"url", "TEXT", "UNIQUE"⟩]

def orgRows : List DbRow :=
  [[some "ABB B.V.", some "www.abb.com"],
   [some "BK", some "www.bk.com"],
   [some "KFC", some "www.kfc.com"]]

def orgDb : Db := [("organisations", ⟨orgSchema, orgRows⟩)]

def orgState : DBState := ⟨orgDb, some orgDb, true⟩

/-! ## Theorems for claims C3, C5, C6, C7, C9 -/

/-- C3, counterexample: the root copy's `delete_by_string_match`
(`databases.py`) has no `try`/`except`, so on a connected database that does
not contain the requested table the malformed-query `sqlite3.OperationalError`
propagates to the caller instead of being caught. -/
theorem c3_root_delete_propagates_sqlite_error :
    (delete_by_string_match_root ⟨[], some [], true⟩ "organisations" "ABB B.V.").out =
      Except.error (PyError.sqliteError (SqlError.operationalError "incomplete input")) ∧
    sqliteErrFree
      (delete_by_string_match_root ⟨[], some [], true⟩ "organisations" "ABB B.V.") =
      false := by
  exact ⟨rfl, rfl⟩

/-- C3, amended: in the backend copy (`backend/app/databases.py`) every
sqlite3 error raised inside `create_table`, `insert`,
`delete_by_string_match`, `update_row`, `get_column_values`,
`get_row_containing_term` and `show_table_data` is caught inside the
operation, in every state and for all arguments; only non-sqlite exceptions
(`update_row`'s no-primary-key `ValueError`, `AttributeError` on a
never-connected object) can reach the caller.  The root copy's
`delete_by_string_match` is the exception: it propagates sqlite errors. -/
theorem c3_backend_ops_absorb_sqlite_errors
    (s : DBState) (table_name target col term : String)
    (cols : List DatabaseColInfo) (data : List (String × String)) :
    sqliteErrFree (create_table s table_name cols) = true ∧
    sqliteErrFree (SQLite3Database.insert s table_name data) = true ∧
    sqliteErrFree (delete_by_string_match s table_name target) = true ∧
    sqliteErrFree (update_row s table_name target data) = true ∧
    sqliteErrFree (get_column_values s table_name col) = true ∧
    sqliteErrFree (get_row_containing_term s table_name term) = true ∧
    sqliteErrFree (show_table_data s table_name) = true := by
  refine ⟨?_, ?_, ?_, ?_, ?_, ?_, ?_⟩ <;>
    · simp only [create_table, SQLite3Database.insert, delete_by_string_match,
        update_row, get_column_values, get_row_containing_term, show_table_data]
      repeat' split
      all_goals rfl

/-- C5: on a table whose schema declares no primary-key column, `update_row`
raises the `ValueError` naming the table; the error escapes the
`except sqlite3.Error` handler (a `ValueError` is not a `sqlite3.Error`)
and the state — in particular the table's rows — is unchanged. -/
theorem c5_update_without_primary_key_raises_value_error
    (s : DBState) (table_name target : String) (data : List (String × String))
    (db : Db) (tbl : DbTable)
    (hcur : s.hasCursor = true) (hconn : s.conn = some db)
    (htbl : db.lookup table_name = some tbl)
    (hnopk : tbl.schema.find? isPrimaryKeyCol = none) :
    (update_row s table_name target data).out =
      Except.error (PyError.valueError
        ("No primary key found for table '" ++ table_name ++ "'")) ∧
    (update_row s table_name target data).state = s := by
  simp only [update_row, hcur, hconn, getPrimaryKeyColumn, tableInfo, htbl, hnopk,
    Option.map_none', if_true]
  exact ⟨by trivial, by trivial⟩

theorem c5_update_without_primary_key_raises_value_error_witness :
    (update_row ⟨[("plain", ⟨[⟨"a", "TEXT", ""⟩], [[some "x"]]⟩)],
        some [("plain", ⟨[⟨"a", "TEXT", ""⟩], [[some "x"]]⟩)], true⟩
      "plain" "x" [("a", "y")]).out =
      Except.error (PyError.valueError "No primary key found for table 'plain'") ∧
    (update_row ⟨[("plain", ⟨[⟨"a", "TEXT", ""⟩], [[some "x"]]⟩)],
        some [("plain", ⟨[⟨"a", "TEXT", ""⟩], [[some "x"]]⟩)], true⟩
      "plain" "x" [("a", "y")]).state =
      ⟨[("plain", ⟨[⟨"a", "TEXT", ""⟩], [[some "x"]]⟩)],
        some [("plain", ⟨[⟨"a", "TEXT", ""⟩], [[some "x"]]⟩)], true⟩ :=
  c5_update_without_primary_key_raises_value_error
    ⟨[("plain", ⟨[⟨"a", "TEXT", ""⟩], [[some "x"]]⟩)],
        some [("plain", ⟨[⟨"a", "TEXT", ""⟩], [[some "x"]]⟩)], true⟩
    "plain" "x" [("a", "y")]
    [("plain", ⟨[⟨"a", "TEXT", ""⟩], [[some "x"]]⟩)]
    ⟨[⟨"a", "TEXT", ""⟩], [[some "x"]]⟩ rfl rfl rfl rfl

/-- C6: `delete_by_string_match` (backend copy) with exact-equality
semantics: it succeeds, commits, and the table keeps exactly the rows in
which no column equals the target string — every row with some column equal
to the target is deleted, and a target that merely occurs as a substring of
cell values matches nothing. -/
theorem c6_delete_exact_match_semantics
    (s : DBState) (table_name target : String) (db : Db) (tbl : DbTable)
    (hcur : s.hasCursor = true) (hconn : s.conn = some db)
    (htbl : db.lookup table_name = some tbl)
    (hne : tbl.schema.isEmpty = false) :
    (delete_by_string_match s table_name target).out = Except.ok () ∧
    (delete_by_string_match s table_name target).state =
      ⟨dbUpdate db table_name
          ⟨tbl.schema, tbl.rows.filter
            (fun r => !(rowMatchesAnyColumn tbl.schema.length r target))⟩,
        some (dbUpdate db table_name
          ⟨tbl.schema, tbl.rows.filter
            (fun r => !(rowMatchesAnyColumn tbl.schema.length r target))⟩),
        true⟩ := by
  simp only [delete_by_string_match, hcur, runCursor, hconn,
    sqlDeleteByStringMatch, tableInfo, htbl, hne, Bool.false_eq_true,
    if_false, if_true]
  exact ⟨by trivial, by trivial⟩

/-- Witness for C6 on the tests' `organisations` table: deleting by the
substring `"ABB"` (a proper substring of the stored `"ABB B.V."` and
`"www.abb.com"`) leaves the state unchanged, while deleting by the exact
value `"BK"` removes exactly that one row. -/
theorem c6_delete_exact_match_semantics_witness :
    ((delete_by_string_match orgState "organisations" "ABB").out = Except.ok () ∧
      (delete_by_string_match orgState "organisations" "ABB").state = orgState) ∧
    ((delete_by_string_match orgState "organisations" "BK").out = Except.ok () ∧
      (delete_by_string_match orgState "organisations" "BK").state =
        ⟨[("organisations", ⟨orgSchema,
            [[some "ABB B.V.", some "www.abb.com"],
             [some "KFC", some "www.kfc.com"]]⟩)],
          some [("organisations", ⟨orgSchema,
            [[some "ABB B.V.", some "www.abb.com"],
             [some "KFC", some "www.kfc.com"]]⟩)], true⟩) :=
  ⟨⟨(c6_delete_exact_match_semantics orgState "organisations" "ABB" orgDb
        ⟨orgSchema, orgRows⟩ rfl rfl rfl rfl).1,
    ((c6_delete_exact_match_semantics orgState "organisations" "ABB" orgDb
        ⟨orgSchema, orgRows⟩ rfl rfl rfl rfl).2).trans (by rfl)⟩,
   ⟨(c6_delete_exact_match_semantics orgState "organisations" "BK" orgDb
        ⟨orgSchema, orgRows⟩ rfl rfl rfl rfl).1,
    ((c6_delete_exact_match_semantics orgState "organisations" "BK" orgDb
        ⟨orgSchema, orgRows⟩ rfl rfl rfl rfl).2).trans (by rfl)⟩⟩

/-- C7: `get_row_containing_term` leaves the state unchanged and returns the
first row (in database row order) in which some column equals the search
term exactly, as a column-name-to-value association — and `none`, not an
error, when no row matches. -/
theorem c7_get_row_first_exact_match_or_none
    (s : DBState) (table_name term : String) (db : Db) (tbl : DbTable)
    (hcur : s.hasCursor = true) (hconn : s.conn = some db)
    (htbl : db.lookup table_name = some tbl)
    (hne : tbl.schema.isEmpty = false) :
    (get_row_containing_term s table_name term).state = s ∧
    (get_row_containing_term s table_name term).out =
      Except.ok ((tbl.rows.find?
          (fun r => rowMatchesAnyColumn tbl.schema.length r term)).map
        (fun r => (tbl.schema.map (fun c => c.name)).zip r)) := by
  simp only [get_row_containing_term, hcur, runCursor, hconn,
    sqlGetRowContainingTerm, tableInfo, htbl, hne, Bool.false_eq_true,
    if_false, if_true]
  cases hf : tbl.rows.find? (fun r => rowMatchesAnyColumn tbl.schema.length r term) with
  | none => exact ⟨by trivial, by trivial⟩
  | some r => exact ⟨by trivial, by trivial⟩

/-- Witness for C7: after inserting
`(organisation_name, url) = ("New entry", "www.new.com")` into the tests'
`organisations` table, looking up `"New entry"` returns that row with its
`url` value `"www.new.com"`, and looking up the absent value `"BKG"`
returns `none`. -/
theorem c7_get_row_first_exact_match_or_none_witness :
    (get_row_containing_term
        (SQLite3Database.insert orgState "organisations"
          [("organisation_name", "New entry"), ("url", "www.new.com")]).state
        "organisations" "New entry").out =
      Except.ok (some [("organisation_name", some "New entry"),
                       ("url", some "www.new.com")]) ∧
    (get_row_containing_term orgState "organisations" "BKG").out =
      Except.ok none :=
  ⟨((c7_get_row_first_exact_match_or_none
      (SQLite3Database.insert orgState "organisations"
        [("organisation_name", "New entry"), ("url", "www.new.com")]).state
      "organisations" "New entry"
      [("organisations", ⟨orgSchema,
        orgRows ++ [[some "New entry", some "www.new.com"]]⟩)]
      ⟨orgSchema, orgRows ++ [[some "New entry", some "www.new.com"]]⟩
      rfl rfl rfl rfl).2).trans (by rfl),
   ((c7_get_row_first_exact_match_or_none orgState "organisations" "BKG"
      orgDb ⟨orgSchema, orgRows⟩ rfl rfl rfl rfl).2).trans (by rfl)⟩

/-- C9: `create_table` on a table name that already exists is a no-op, not
an error: the call returns normally and the connection still sees exactly
the existing table (same schema, same rows), whatever column specification
is passed. -/
theorem c9_create_table_idempotent
    (s : DBState) (table_name : String) (cols : List DatabaseColInfo)
    (db : Db) (tbl : DbTable)
    (hcur : s.hasCursor = true) (hconn : s.conn = some db)
    (htbl : db.lookup table_name = some tbl) :
    (create_table s table_name cols).out = Except.ok () ∧
    (create_table s table_name cols).state.conn = some db := by
  simp only [create_table, hcur, runCursor, hconn, sqlCreateTable, if_true]
  by_cases hc : cols.isEmpty
  · simp only [hc, if_true]
    exact ⟨by trivial, by trivial⟩
  · simp only [hc, Bool.false_eq_true, if_false, htbl, Option.isSome_some, if_true]
    exact ⟨by trivial, by trivial⟩

/-- Witness for C9: re-creating the `organisations` table (the state already
holding it) with the same column specification is a no-op. -/
theorem c9_create_table_idempotent_witness :
    (create_table orgState "organisations" orgSchema).out = Except.ok () ∧
    (create_table orgState "organisations" orgSchema).state.conn = some orgDb :=
  c9_create_table_idempotent orgState "organisations" orgSchema orgDb
    ⟨orgSchema, orgRows⟩ rfl rfl rfl

/-! ## Helper lemmas for C8 -/

/-- Looking up a name after `dbUpdate` on that name yields the new table,
provided the name was present. -/
theorem lookup_dbUpdate (db : Db) (nm : String) (t2 : DbTable)
    (h : (db.lookup nm).isSome = true) :
    (dbUpdate db nm t2).lookup nm = some t2 := by
  induction db with
  | nil => simp [List.lookup] at h
  | cons p rest ih =>
    obtain ⟨k, v⟩ := p
    by_cases hk : k = nm
    · subst hk
      have hb : (k == k) = true := beq_self_eq_true k
      simp only [dbUpdate, List.map_cons]
      rw [if_pos hb]
      simp only [List.lookup, hb]
    · have hk1 : (k == nm) = false := beq_eq_false_iff_ne.mpr hk
      have hk2 : (nm == k) = false := beq_eq_false_iff_ne.mpr (Ne.symm hk)
      simp only [List.lookup, hk2] at h
      simp only [dbUpdate, List.map_cons, hk1, Bool.false_eq_true, if_false]
      simp only [List.lookup, hk2]
      exact ih h

/-- Appending a value that is NULL or not already present keeps a column
free of duplicated non-NULL values. -/
theorem dupNonNull_append_false (l : List (Option String)) (v : Option String)
    (h : dupNonNull l = false)
    (hv : l.contains v = false ∨ v = none) :
    dupNonNull (l ++ [v]) = false := by
  induction l with
  | nil => cases v <;> simp [dupNonNull]
  | cons x xs ih =>
    simp only [dupNonNull, Bool.or_eq_false_iff] at h
    have hv2 : xs.contains v = false ∨ v = none := by
      rcases hv with hv | hv
      · simp only [List.contains_cons, Bool.or_eq_false_iff] at hv
        exact Or.inl hv.2
      · exact Or.inr hv
    simp only [List.cons_append, dupNonNull, Bool.or_eq_false_iff]
    refine ⟨?_, ih h.2 hv2⟩
    cases x with
    | none => rfl
    | some s =>
      have hx : xs.contains (some s) = false := h.1
      show (xs ++ [v]).contains (some s) = false
      rw [List.contains_eq_any_beq, List.any_append]
      rw [List.contains_eq_any_beq] at hx
      simp only [hx, Bool.false_or, List.any_cons, List.any_nil, Bool.or_false]
      rcases hv with hv | hv
      · simp only [List.contains_cons, Bool.or_eq_false_iff] at hv
        rw [Bool.beq_comm]
        exact hv.1
      · subst hv
        rfl

/-- C8: first, inserting a row whose value in some PRIMARY KEY / UNIQUE
column `i` duplicates an existing row's value in that column is a complete
no-op — the state (hence every column's value set) is unchanged and no
exception reaches the caller; second, any insert whatsoever preserves
freedom from duplicated non-NULL values in every constrained column, so
primary-key values stay unique under insertion. -/
theorem c8_duplicate_insert_noop_and_uniqueness_preserved :
    (∀ (s : DBState) (table_name : String) (data : List (String × String))
        (db : Db) (tbl : DbTable) (i : Nat) (v : String),
      s.conn = some db → db.lookup table_name = some tbl →
      i < tbl.schema.length →
      isConstrainedCol (tbl.schema.getD i ⟨"", "", ""⟩) = true →
      (buildRow tbl.schema data).getD i none = some v →
      (colValues tbl.rows i).contains (some v) = true →
      (SQLite3Database.insert s table_name data).state = s ∧
      (SQLite3Database.insert s table_name data).out = Except.ok ()) ∧
    (∀ (s : DBState) (table_name : String) (data : List (String × String))
        (db : Db) (tbl : DbTable) (i : Nat),
      s.conn = some db → db.lookup table_name = some tbl →
      i < tbl.schema.length →
      isConstrainedCol (tbl.schema.getD i ⟨"", "", ""⟩) = true →
      dupNonNull (colValues tbl.rows i) = false →
      ∀ (db2 : Db) (tbl2 : DbTable),
        (SQLite3Database.insert s table_name data).state.conn = some db2 →
        db2.lookup table_name = some tbl2 →
        dupNonNull (colValues tbl2.rows i) = false) := by
  constructor
  · intro s table_name data db tbl i v hconn htbl hi hcol hv hdup
    have hviol : violatesConstraint tbl (buildRow tbl.schema data) = true := by
      refine List.any_eq_true.mpr ⟨i, List.mem_range.mpr hi, ?_⟩
      rw [hcol, Bool.true_and, hv]
      exact hdup
    simp only [SQLite3Database.insert, hconn]
    split
    · rename_i db3 heq
      exfalso
      cases h1 : data.isEmpty <;>
        cases h2 : data.any (fun kv => !(tbl.schema.any (fun c => c.name == kv.1))) <;>
        simp [sqlInsert, htbl, h1, h2, hviol] at heq
    · exact ⟨rfl, rfl⟩
    · exact ⟨rfl, rfl⟩
  · intro s table_name data db tbl i hconn htbl hi hcol hdup db2 tbl2 hconn2 htbl2
    simp only [SQLite3Database.insert, hconn] at hconn2
    split at hconn2
    · rename_i db3 heq
      have hdb : db3 = db2 := Option.some.inj hconn2
      subst hdb
      cases h1 : data.isEmpty <;>
        cases h2 : data.any (fun kv => !(tbl.schema.any (fun c => c.name == kv.1))) <;>
        cases hviol : violatesConstraint tbl (buildRow tbl.schema data) <;>
        simp [sqlInsert, htbl, h1, h2, hviol] at heq
      have hsome : (db.lookup table_name).isSome = true := by rw [htbl]; rfl
      rw [← heq] at htbl2
      rw [lookup_dbUpdate db table_name _ hsome] at htbl2
      obtain rfl := Option.some.inj htbl2
      have hnot := List.any_eq_false.mp hviol i (List.mem_range.mpr hi)
      rw [hcol, Bool.true_and, Bool.not_eq_true] at hnot
      simp only [colValues, List.map_append, List.map_cons, List.map_nil]
      cases hrv : (buildRow tbl.schema data).getD i none with
      | none =>
        exact dupNonNull_append_false _ none hdup (Or.inr rfl)
      | some w =>
        simp only [hrv] at hnot
        exact dupNonNull_append_false _ (some w) hdup (Or.inl hnot)
    · have h2 : s.conn = some db2 := hconn2
      rw [hconn] at h2
      obtain rfl := Option.some.inj h2
      rw [htbl] at htbl2
      obtain rfl := Option.some.inj htbl2
      exact hdup
    · have h2 : s.conn = some db2 := hconn2
      rw [hconn] at h2
      obtain rfl := Option.some.inj h2
      rw [htbl] at htbl2
      obtain rfl := Option.some.inj htbl2
      exact hdup

/-- Witness for C8: re-inserting the already-stored
`("ABB B.V.", "www.abb.com")` organisation is a complete no-op with a
normal return (the duplicate is in primary-key column 0), and inserting the
fresh `("New entry", "www.new.com")` keeps the primary-key column free of
duplicates. -/
theorem c8_duplicate_insert_noop_and_uniqueness_preserved_witness :
    ((SQLite3Database.insert orgState "organisations"
        [("organisation_name", "ABB B.V."), ("url", "www.abb.com")]).state =
      orgState ∧
     (SQLite3Database.insert orgState "organisations"
        [("organisation_name", "ABB B.V."), ("url", "www.abb.com")]).out =
      Except.ok ()) ∧
    dupNonNull (colValues
      (orgRows ++ [[some "New entry", some "www.new.com"]]) 0) = false :=
  ⟨c8_duplicate_insert_noop_and_uniqueness_preserved.1 orgState "organisations"
      [("organisation_name", "ABB B.V."), ("url", "www.abb.com")] orgDb
      ⟨orgSchema, orgRows⟩ 0 "ABB B.V." rfl rfl (by decide) rfl rfl rfl,
   c8_duplicate_insert_noop_and_uniqueness_preserved.2 orgState "organisations"
      [("organisation_name", "New entry"), ("url", "www.new.com")] orgDb
      ⟨orgSchema, orgRows⟩ 0 rfl rfl (by decide) rfl rfl
      [("organisations", ⟨orgSchema,
        orgRows ++ [[some "New entry", some "www.new.com"]]⟩)]
      ⟨orgSchema, orgRows ++ [[some "New entry", some "www.new.com"]]⟩
      rfl rfl⟩

/-- C10: `insert` executes on the connection without calling `commit`, so
(a) it never changes the durable file content; (b) a `disconnect`
immediately after an `insert` closes the connection and leaves the file
exactly as before the insert — the pending row is discarded; (c)
`create_table` (with a non-empty column list), (d) `delete_by_string_match`
on an existing table, and (e) a successful `update_row` all call `commit`,
making the connection's entire working state — any pending inserted row
included — durable; (f) the read operations neither commit nor change any
state. -/
theorem c10_insert_uncommitted_until_commit_op :
    (∀ (s : DBState) (table_name : String) (data : List (String × String)),
      (SQLite3Database.insert s table_name data).state.fileDb = s.fileDb) ∧
    (∀ (s : DBState) (table_name : String) (data : List (String × String)),
      (disconnect (SQLite3Database.insert s table_name data).state).fileDb =
        s.fileDb ∧
      (disconnect (SQLite3Database.insert s table_name data).state).conn =
        none) ∧
    (∀ (s : DBState) (table_name : String) (cols : List DatabaseColInfo)
        (db : Db),
      s.hasCursor = true → s.conn = some db → cols.isEmpty = false →
      (create_table s table_name cols).state.conn =
        some (create_table s table_name cols).state.fileDb) ∧
    (∀ (s : DBState) (table_name target : String) (db : Db) (tbl : DbTable),
      s.hasCursor = true → s.conn = some db →
      db.lookup table_name = some tbl → tbl.schema.isEmpty = false →
      (delete_by_string_match s table_name target).state.conn =
        some (delete_by_string_match s table_name target).state.fileDb) ∧
    (∀ (s : DBState) (table_name target pk : String)
        (data : List (String × String)) (db db2 : Db) (n : Nat),
      s.hasCursor = true → s.conn = some db →
      getPrimaryKeyColumn db table_name = some pk →
      sqlUpdateRow db table_name pk data target = Except.ok (db2, n) →
      (update_row s table_name target data).state.conn =
        some (update_row s table_name target data).state.fileDb) ∧
    (∀ (s : DBState) (table_name col term : String),
      (get_column_values s table_name col).state = s ∧
      (get_row_containing_term s table_name term).state = s ∧
      (show_table_data s table_name).state = s) := by
  refine ⟨?_, ?_, ?_, ?_, ?_, ?_⟩
  · intro s table_name data
    simp only [SQLite3Database.insert]
    repeat' split
    all_goals rfl
  · intro s table_name data
    cases hc : s.conn with
    | none => simp [SQLite3Database.insert, hc, disconnect]
    | some db =>
      cases hins : sqlInsert db table_name data with
      | ok db2 => simp [SQLite3Database.insert, hc, hins, disconnect]
      | error e =>
        cases e <;> simp [SQLite3Database.insert, hc, hins, disconnect]
  · intro s table_name cols db hcur hconn hemp
    simp only [create_table, hcur, if_true, runCursor, hconn, sqlCreateTable,
      hemp, Bool.false_eq_true, if_false]
    split
    · rfl
    · rename_i e heq
      exfalso
      by_cases hl : (List.lookup table_name db).isSome = true <;>
        simp [hl] at heq
  · intro s table_name target db tbl hcur hconn htbl hne
    simp only [delete_by_string_match, hcur, if_true, runCursor, hconn,
      sqlDeleteByStringMatch, tableInfo, htbl, hne, Bool.false_eq_true,
      if_false]
  · intro s table_name target pk data db db2 n hcur hconn hpk hraw
    simp only [update_row, hcur, if_true, hconn, hpk, hraw]
  · intro s table_name col term
    refine ⟨?_, ?_, ?_⟩ <;>
      · simp only [get_column_values, get_row_containing_term, show_table_data]
        repeat' split
        all_goals rfl

/-- Witness for C10 on the tests' `organisations` database: inserting
`("New entry", "www.new.com")` leaves the durable file at the original
three rows; a disconnect right after discards the pending row; running the
committing `create_table` after the insert makes the working state (with
the new row) durable; the delete and update commit paths and the read
operations behave as stated on concrete inputs. -/
theorem c10_insert_uncommitted_until_commit_op_witness :
    (SQLite3Database.insert orgState "organisations"
        [("organisation_name", "New entry"), ("url", "www.new.com")]).state.fileDb =
      orgState.fileDb ∧
    ((disconnect (SQLite3Database.insert orgState "organisations"
        [("organisation_name", "New entry"), ("url", "www.new.com")]).state).fileDb =
      orgState.fileDb ∧
     (disconnect (SQLite3Database.insert orgState "organisations"
        [("organisation_name", "New entry"), ("url", "www.new.com")]).state).conn =
      none) ∧
    (create_table (SQLite3Database.insert orgState "organisations"
        [("organisation_name", "New entry"), ("url", "www.new.com")]).state
        "organisations" orgSchema).state.conn =
      some (create_table (SQLite3Database.insert orgState "organisations"
        [("organisation_name", "New entry"), ("url", "www.new.com")]).state
        "organisations" orgSchema).state.fileDb ∧
    (delete_by_string_match orgState "organisations" "BK").state.conn =
      some (delete_by_string_match orgState "organisations" "BK").state.fileDb ∧
    (update_row orgState "organisations" "KFC"
        [("url", "www.kfc_rocks.com")]).state.conn =
      some (update_row orgState "organisations" "KFC"
        [("url", "www.kfc_rocks.com")]).state.fileDb ∧
    ((get_column_values orgState "organisations" "organisation_name").state =
      orgState ∧
     (get_row_containing_term orgState "organisations" "BK").state = orgState ∧
     (show_table_data orgState "organisations").state = orgState) :=
  ⟨c10_insert_uncommitted_until_commit_op.1 orgState "organisations"
      [("organisation_name", "New entry"), ("url", "www.new.com")],
   c10_insert_uncommitted_until_commit_op.2.1 orgState "organisations"
      [("organisation_name", "New entry"), ("url", "www.new.com")],
   c10_insert_uncommitted_until_commit_op.2.2.1
      (SQLite3Database.insert orgState "organisations"
        [("organisation_name", "New entry"), ("url", "www.new.com")]).state
      "organisations" orgSchema
      [("organisations", ⟨orgSchema,
        orgRows ++ [[some "New entry", some "www.new.com"]]⟩)]
      rfl rfl rfl,
   c10_insert_uncommitted_until_commit_op.2.2.2.1 orgState "organisations"
      "BK" orgDb ⟨orgSchema, orgRows⟩ rfl rfl rfl rfl,
   c10_insert_uncommitted_until_commit_op.2.2.2.2.1 orgState "organisations"
      "KFC" "organisation_name" [("url", "www.kfc_rocks.com")] orgDb
      [("organisations", ⟨orgSchema,
        [[some "ABB B.V.", some "www.abb.com"],
         [some "BK", some "www.bk.com"],
         [some "KFC", some "www.kfc_rocks.com"]]⟩)] 1
      rfl rfl rfl rfl,
   c10_insert_uncommitted_until_commit_op.2.2.2.2.2 orgState "organisations"
      "organisation_name" "BK"⟩
